import Mathlib

/-!
Shallow embedding of the selector-resolution, filename-derivation and
scroll-centering logic of the `section-shot` screenshot CLI.  The repository
contains the same program twice: a top-level variant (`src/index.ts`, with
free functions `captureScreenshots`, `triggerAnimation`, `getSelectors`,
`generateFilename`) and a class-based variant (`SelectorManager`,
`AnimationHandler`, `ScreenshotCapture`) with identical bodies.  Pure
functions are translated directly; the DOM, the filesystem and the JSON
parser are made explicit as function-valued environments, and thrown
JavaScript errors become `Except` values.  Pixel geometry (JavaScript
numbers) is modelled with exact rationals.
-/

/-- Order-preserving de-duplication: the behaviour of the JavaScript
`Array.from(new Set(list))` used in `captureScreenshots` /
`SelectorManager.getSelectors`.  A JavaScript `Set` keeps the first
occurrence of each string (membership is exact string equality) and
preserves insertion order. -/
def jsSetDedup : List String → List String
  | [] => []
  | x :: xs => x :: (jsSetDedup xs).filter (fun y => y != x)

theorem mem_jsSetDedup (a : String) (l : List String) : a ∈ jsSetDedup l ↔ a ∈ l := by
  induction l with
  | nil => simp [jsSetDedup]
  | cons x xs ih =>
    by_cases hax : a = x
    · simp [jsSetDedup, hax]
    · simp [jsSetDedup, List.mem_filter, bne_iff_ne, ih, hax]

theorem nodup_jsSetDedup (l : List String) : (jsSetDedup l).Nodup := by
  induction l with
  | nil => simp [jsSetDedup]
  | cons x xs ih =>
    refine List.nodup_cons.mpr ⟨?_, ih.filter _⟩
    intro hmem
    have hx := (List.mem_filter.mp hmem).2
    simp at hx

theorem jsSetDedup_eq_self (l : List String) (h : l.Nodup) : jsSetDedup l = l := by
  induction l with
  | nil => rfl
  | cons x xs ih =>
    rw [List.nodup_cons] at h
    have hxs : jsSetDedup xs = xs := ih h.2
    simp only [jsSetDedup, hxs, List.cons.injEq, true_and]
    rw [List.filter_eq_self]
    intro a ha
    simp only [bne_iff_ne, ne_eq, decide_eq_true_eq]
    exact fun he => h.1 (he ▸ ha)

theorem count_jsSetDedup_of_mem {a : String} {l : List String} (h : a ∈ l) :
    (jsSetDedup l).count a = 1 :=
  List.count_eq_one_of_mem (nodup_jsSetDedup l) ((mem_jsSetDedup a l).mpr h)

/-- Synthetic locator string built around a `data-screenshot` attribute
token, as produced by the template literals in the child-expansion and
selector-rewrite code. -/
def dataScreenshotLocator (token : String) : String :=
  "[data-screenshot=\"" ++ token ++ "\"]"

/-- Child expansion (`page.evaluate` block of `SelectorManager.getChildSelectors`
and the identical block in `captureScreenshots`): `document.querySelector(parent)`
either finds no parent (`none`, the query returns `[]`) or a parent with `n`
immediate children; each child in document order gets the attribute token
`screenshot-target-<index>` and contributes the corresponding locator. -/
def SelectorManager.getChildSelectors (parentChildCount : Option Nat) : List String :=
  match parentChildCount with
  | none => []
  | some n => (List.range n).map fun index =>
      dataScreenshotLocator ("screenshot-target-" ++ toString index)

/-- Selector resolution (`SelectorManager.getSelectors`, and lines 127–150 of
`captureScreenshots`): when a parent selector is configured (`some cs`) the
base list and the child-derived list are merged through a `Set`; without a
parent selector the base list is returned untouched. -/
def SelectorManager.getSelectors (base : List String) (childSelectors : Option (List String)) :
    List String :=
  match childSelectors with
  | none => base
  | some cs => jsSetDedup (base ++ cs)

/-- C1: for every selector list `L` (possibly with duplicates) and every
child-derived selector list `C`, selector resolution returns a list with no
duplicate selector strings in which every distinct element of `L` appears
exactly once, membership being exact string equality. -/
theorem getSelectors_dedup_complete (L C : List String) :
    (SelectorManager.getSelectors L (some C)).Nodup ∧
      ∀ s, s ∈ L → (SelectorManager.getSelectors L (some C)).count s = 1 := by
  refine ⟨nodup_jsSetDedup _, fun s hs => count_jsSetDedup_of_mem ?_⟩
  exact List.mem_append.mpr (Or.inl hs)

/-- Witness for C1 at the concrete input `L = [".a", ".b", ".a"]`,
`C = [".b", ".c"]`. -/
theorem getSelectors_dedup_complete_witness :
    (SelectorManager.getSelectors [".a", ".b", ".a"] (some [".b", ".c"])).Nodup ∧
      (SelectorManager.getSelectors [".a", ".b", ".a"] (some [".b", ".c"])).count ".a" = 1 :=
  ⟨(getSelectors_dedup_complete [".a", ".b", ".a"] [".b", ".c"]).1,
   (getSelectors_dedup_complete [".a", ".b", ".a"] [".b", ".c"]).2 ".a" (by decide)⟩

/-- C5 counterexample: with a missing parent (zero children contributed) and
the duplicated base list `[".a", ".a"]`, resolution returns `[".a"]`, not the
base list unchanged — the multiplicity is not preserved. -/
theorem getSelectors_missing_parent_counterexample :
    SelectorManager.getSelectors [".a", ".a"] (some (SelectorManager.getChildSelectors none))
        = [".a"] ∧
      SelectorManager.getSelectors [".a", ".a"] (some (SelectorManager.getChildSelectors none))
        ≠ [".a", ".a"] := by
  decide

/-- C5 as amended: a parent selector matching no element contributes zero
child selectors (and is not an error), and resolution then returns the
order-preserving de-duplication of the base list; in particular the base
list is returned unchanged whenever it contains no duplicate strings. -/
theorem getSelectors_missing_parent_dedup (base : List String) :
    SelectorManager.getChildSelectors none = [] ∧
      SelectorManager.getSelectors base (some (SelectorManager.getChildSelectors none))
        = jsSetDedup base ∧
      (base.Nodup →
        SelectorManager.getSelectors base (some (SelectorManager.getChildSelectors none)) = base) := by
  refine ⟨rfl, ?_, ?_⟩
  · show jsSetDedup (base ++ []) = jsSetDedup base
    rw [List.append_nil]
  · intro h
    show jsSetDedup (base ++ []) = base
    rw [List.append_nil]
    exact jsSetDedup_eq_self base h

/-- Witness for the amended C5 at the duplicate-free base list `[".a", ".b"]`. -/
theorem getSelectors_missing_parent_dedup_witness :
    SelectorManager.getSelectors [".a", ".b"] (some (SelectorManager.getChildSelectors none))
      = [".a", ".b"] :=
  (getSelectors_missing_parent_dedup [".a", ".b"]).2.2 (by decide)

/-- Collapse every run of consecutive underscores to a single underscore:
the JavaScript `.replace(/_+/g, "_")` step of `generateFilename`. -/
def collapseUnderscores : List Char → List Char
  | [] => []
  | [c] => [c]
  | a :: b :: rest =>
    if a = '_' ∧ b = '_' then collapseUnderscores (b :: rest)
    else a :: collapseUnderscores (b :: rest)

/-- Remove a single leading underscore if present: the `^_` alternative of
the JavaScript `.replace(/^_|_$/g, "")` step. -/
def trimLeadingUnderscore (l : List Char) : List Char :=
  match l with
  | [] => []
  | c :: rest => if c = '_' then rest else c :: rest

/-- Remove a single trailing underscore if present: the `_$` alternative of
the same replacement. -/
def trimTrailingUnderscore (l : List Char) : List Char :=
  (trimLeadingUnderscore l.reverse).reverse

/-- The whole `.replace(/^_|_$/g, "")` step: one leading and one trailing
underscore are removed (the global regex matches each end at most once). -/
def trimEdgeUnderscores (l : List Char) : List Char :=
  trimTrailingUnderscore (trimLeadingUnderscore l)

/-- Strip all leading and all trailing underscores — the specification's
wording ("strip leading/trailing `_`") of the edge-trimming step. -/
def stripEdgeUnderscoresAll (l : List Char) : List Char :=
  (((l.dropWhile fun c => c == '_').reverse).dropWhile fun c => c == '_').reverse

/-- Character cleanup pipeline of `generateFilename` on the selector's
characters: drop `#` and `.` (`/[#.]/g → ""`), replace every character
outside `[A-Za-z0-9]` by `_` (`/[^a-z0-9]/gi → "_"`), collapse underscore
runs, trim the edge underscores, and lowercase. -/
def cleanSelector (selector : String) : String :=
  let removed := selector.data.filter fun c => !(c == '#' || c == '.')
  let replaced := removed.map fun c => if c.isAlpha || c.isDigit then c else '_'
  String.mk ((trimEdgeUnderscores (collapseUnderscores replaced)).map Char.toLower)

/-- Filename derivation (`generateFilename`, identical in both variants of
the program): cleaned selector, double underscore, device name, `.png`. -/
def generateFilename (selector device : String) : String :=
  cleanSelector selector ++ "__" ++ device ++ ".png"

/-- The same pipeline with the edge-trimming step taken literally from the
specification's words (strip arbitrarily many leading/trailing
underscores); used to state that the code implements the specified
pipeline. -/
def specCleanSelector (selector : String) : String :=
  let removed := selector.data.filter fun c => !(c == '#' || c == '.')
  let replaced := removed.map fun c => if c.isAlpha || c.isDigit then c else '_'
  String.mk ((stripEdgeUnderscoresAll (collapseUnderscores replaced)).map Char.toLower)

/-- Specification-side filename derivation, for the refinement statement. -/
def specGenerateFilename (selector device : String) : String :=
  specCleanSelector selector ++ "__" ++ device ++ ".png"

/-- Relation between adjacent characters after collapsing: never two
underscores in a row. -/
def noAdjUnderscores (a b : Char) : Prop := ¬(a = '_' ∧ b = '_')

theorem collapseUnderscores_cons (b : Char) (rest : List Char) :
    ∃ t, collapseUnderscores (b :: rest) = b :: t := by
  induction rest generalizing b with
  | nil => exact ⟨[], rfl⟩
  | cons c r ih =>
    by_cases h : b = '_' ∧ c = '_'
    · obtain ⟨t, ht⟩ := ih c
      refine ⟨t, ?_⟩
      rw [show collapseUnderscores (b :: c :: r) = collapseUnderscores (c :: r) from by
            simp [collapseUnderscores, h], ht, h.1, h.2]
    · exact ⟨collapseUnderscores (c :: r), by simp [collapseUnderscores, h]⟩

theorem chain_collapseUnderscores (l : List Char) :
    List.Chain' noAdjUnderscores (collapseUnderscores l) := by
  induction l with
  | nil => simp [collapseUnderscores]
  | cons a rest ih =>
    cases rest with
    | nil => simp [collapseUnderscores]
    | cons b r =>
      by_cases h : a = '_' ∧ b = '_'
      · rw [show collapseUnderscores (a :: b :: r) = collapseUnderscores (b :: r) from by
              simp [collapseUnderscores, h]]
        exact ih
      · obtain ⟨t, ht⟩ := collapseUnderscores_cons b r
        rw [show collapseUnderscores (a :: b :: r) = a :: collapseUnderscores (b :: r) from by
              simp [collapseUnderscores, h], ht]
        rw [ht] at ih
        exact List.chain'_cons.mpr ⟨h, ih⟩

theorem trimLeadingUnderscore_eq_dropWhile (l : List Char)
    (h : List.Chain' noAdjUnderscores l) :
    trimLeadingUnderscore l = l.dropWhile fun c => c == '_' := by
  match l with
  | [] => rfl
  | c :: xs =>
    by_cases hc : c = '_'
    · subst hc
      cases xs with
      | nil => simp [trimLeadingUnderscore, List.dropWhile]
      | cons d r =>
        have hd : ¬('_' = '_' ∧ d = '_') := (List.chain'_cons.mp h).1
        have hd' : d ≠ '_' := fun hh => hd ⟨rfl, hh⟩
        simp [trimLeadingUnderscore, List.dropWhile_cons, hd']
    · simp [trimLeadingUnderscore, List.dropWhile_cons, hc]

theorem chain_trimLeadingUnderscore {l : List Char}
    (h : List.Chain' noAdjUnderscores l) :
    List.Chain' noAdjUnderscores (trimLeadingUnderscore l) := by
  match l with
  | [] => exact h
  | c :: xs =>
    by_cases hc : c = '_'
    · simpa [trimLeadingUnderscore, hc] using h.tail
    · simpa [trimLeadingUnderscore, hc] using h

theorem chain_reverse_noAdj {l : List Char}
    (h : List.Chain' noAdjUnderscores l) :
    List.Chain' noAdjUnderscores l.reverse := by
  rw [List.chain'_reverse]
  exact h.imp fun a b hab hp => hab ⟨hp.2, hp.1⟩

theorem trimEdge_eq_stripAll (l : List Char) (h : List.Chain' noAdjUnderscores l) :
    trimEdgeUnderscores l = stripEdgeUnderscoresAll l := by
  have h1 : List.Chain' noAdjUnderscores (l.dropWhile fun c => c == '_') := by
    rw [← trimLeadingUnderscore_eq_dropWhile l h]
    exact chain_trimLeadingUnderscore h
  unfold trimEdgeUnderscores trimTrailingUnderscore stripEdgeUnderscoresAll
  rw [trimLeadingUnderscore_eq_dropWhile l h,
      trimLeadingUnderscore_eq_dropWhile _ (chain_reverse_noAdj h1)]

theorem cleanSelector_eq_spec (s : String) : cleanSelector s = specCleanSelector s := by
  have h := trimEdge_eq_stripAll
    (collapseUnderscores ((s.data.filter fun c => !(c == '#' || c == '.')).map
      fun c => if c.isAlpha || c.isDigit then c else '_'))
    (chain_collapseUnderscores _)
  simp only [cleanSelector, specCleanSelector]
  rw [h]

/-- C3: filename derivation is the deterministic pure pipeline the
specification describes (strip `#`/`.`, replace other non-alphanumerics by
`_`, collapse consecutive `_`, strip leading/trailing `_`, lowercase,
append `__<device>.png`), and on the given examples produces
`hero_banner__mobile.png` and `main__desktop.png`. -/
theorem generateFilename_spec_conformance :
    (∀ selector device, generateFilename selector device = specGenerateFilename selector device) ∧
      generateFilename ".hero-banner" "mobile" = "hero_banner__mobile.png" ∧
      generateFilename "#main" "desktop" = "main__desktop.png" := by
  refine ⟨fun selector device => ?_, by decide, by decide⟩
  unfold generateFilename specGenerateFilename
  rw [cleanSelector_eq_spec]

/-- C10: filename derivation is not injective in the selector argument: the
distinct selectors `.hero` and `#hero` (likewise `a b` and `a_b`) produce
identical filenames for the same device, so one selector's capture can
overwrite another's. -/
theorem generateFilename_not_injective :
    (".hero" : String) ≠ "#hero" ∧
      generateFilename ".hero" "mobile" = generateFilename "#hero" "mobile" ∧
      ("a b" : String) ≠ "a_b" ∧
      generateFilename "a b" "desktop" = generateFilename "a_b" "desktop" := by
  decide

/-- Errors thrown inside the per-selector processing block and caught by
its `try`/`catch`. -/
inductive CaptureError
  | elementNotFound (selector : String)
  | screenshotFailed (filepath : String)
deriving DecidableEq

/-- Per-selector outcome of a device pass. -/
inductive CaptureResult
  | saved (filepath : String)
  | failed (error : CaptureError)
deriving DecidableEq

/-- DOM state visible to the selector-rewriting code: which CSS selector
strings currently match at least one element (`document.querySelector`
returning non-null). -/
structure PageState where
  matchesSelector : String → Bool

/-- External collaborator of the per-selector step that can fail: the
screenshot write (`page.screenshot`), keyed by target file path. -/
structure CaptureEnv where
  screenshotFails : String → Bool

/-- JavaScript `selector.startsWith("[data-screenshot")`, written over the
character lists so that it evaluates by kernel reduction. -/
def startsWithDataScreenshot (selector : String) : Bool :=
  "[data-screenshot".data.isPrefixOf selector.data

/-- Safe-selector rewriting (`SelectorManager.makeSelectorSafe`, and the
identical `page.evaluate` block in `captureScreenshots`): a synthetic
locator passes through untouched; otherwise the first element matching the
selector receives a fresh `data-screenshot` token (`freshToken`, standing
for `screenshot-<Date.now()>-<random>`), which makes the corresponding
synthetic locator match from now on; a selector matching nothing throws
`Element not found`. -/
def SelectorManager.makeSelectorSafe (page : PageState) (freshToken : String)
    (selector : String) : Except CaptureError (String × PageState) :=
  if startsWithDataScreenshot selector then
    Except.ok (selector, page)
  else if page.matchesSelector selector then
    let safeSelector := dataScreenshotLocator freshToken
    Except.ok (safeSelector, { matchesSelector := fun s => s == safeSelector || page.matchesSelector s })
  else
    Except.error (CaptureError.elementNotFound selector)

/-- Options consumed by the per-selector step. -/
structure RunOptions where
  output : String
  animationTrigger : Bool
  wait : Nat

/-- `path.join(dir, file)` for the plain directory and file names joined
here. -/
def joinPath (dir file : String) : String := dir ++ "/" ++ file

/-- One iteration of the per-selector loop
(`ScreenshotCapture.processSelector`, and the `try`/`catch` body at lines
157–211 of `captureScreenshots`): rewrite the selector, optionally trigger
animations and wait (neither alters which selectors match, nor throws),
derive the filename from the original selector, and screenshot.  Every
thrown error is caught and becomes a `failed` outcome; DOM mutations made
before a failure persist. -/
def ScreenshotCapture.processSelector (env : CaptureEnv) (opts : RunOptions)
    (freshToken deviceType : String) (page : PageState) (selector : String) :
    CaptureResult × PageState :=
  match SelectorManager.makeSelectorSafe page freshToken selector with
  | Except.error e => (CaptureResult.failed e, page)
  | Except.ok (_safeSelector, page2) =>
    let filepath := joinPath opts.output (generateFilename selector deviceType)
    if env.screenshotFails filepath then
      (CaptureResult.failed (CaptureError.screenshotFailed filepath), page2)
    else
      (CaptureResult.saved filepath, page2)

/-- The per-selector loop of one device pass
(`for (const selector of selectors)`), with `tokens i` the fresh token
generated in the `i`-th iteration. -/
def ScreenshotCapture.processSelectors (env : CaptureEnv) (opts : RunOptions)
    (tokens : Nat → String) (deviceType : String) :
    PageState → Nat → List String → List CaptureResult × PageState
  | page, _, [] => ([], page)
  | page, i, selector :: rest =>
    let step := ScreenshotCapture.processSelector env opts (tokens i) deviceType page selector
    let next := ScreenshotCapture.processSelectors env opts tokens deviceType step.2 (i + 1) rest
    (step.1 :: next.1, next.2)

def CaptureResult.isSaved : CaptureResult → Bool
  | CaptureResult.saved _ => true
  | CaptureResult.failed _ => false

def CaptureResult.isElementNotFound : CaptureResult → Bool
  | CaptureResult.failed (CaptureError.elementNotFound _) => true
  | _ => false

/-- Page for the failure-isolation scenario: only `.present` matches. -/
def presentOnlyPage : PageState := { matchesSelector := fun s => s == ".present" }

/-- Environment in which every screenshot write succeeds. -/
def reliableEnv : CaptureEnv := { screenshotFails := fun _ => false }

/-- Default CLI options relevant to the per-selector step. -/
def scenarioOptions : RunOptions :=
  { output := "screenshots", animationTrigger := false, wait := 1000 }

/-- A concrete fresh-token supply. -/
def scenarioTokens : Nat → String := fun i => "tok" ++ toString i

/-- C2: every error raised while processing one selector is caught inside
the loop body and recorded as a `failed` outcome, and the loop continues —
the pass always produces one outcome per selector, for every page,
environment, token supply and selector list (first conjunct; nothing
aborts).  On the scenario `[".missing", ".present"]` where only `.present`
matches, the pass completes with exactly one saved file and exactly one
element-not-found failure, in order (remaining conjuncts). -/
theorem processSelectors_failure_isolation :
    (∀ env opts tokens deviceType page i selectors,
        (ScreenshotCapture.processSelectors env opts tokens deviceType page i selectors).1.length
          = selectors.length) ∧
      (ScreenshotCapture.processSelectors reliableEnv scenarioOptions scenarioTokens "desktop"
            presentOnlyPage 0 [".missing", ".present"]).1
        = [CaptureResult.failed (CaptureError.elementNotFound ".missing"),
           CaptureResult.saved "screenshots/present__desktop.png"] ∧
      (ScreenshotCapture.processSelectors reliableEnv scenarioOptions scenarioTokens "desktop"
            presentOnlyPage 0 [".missing", ".present"]).1.countP CaptureResult.isSaved = 1 ∧
      (ScreenshotCapture.processSelectors reliableEnv scenarioOptions scenarioTokens "desktop"
            presentOnlyPage 0 [".missing", ".present"]).1.countP CaptureResult.isElementNotFound
        = 1 := by
  refine ⟨?_, by decide, by decide, by decide⟩
  intro env opts tokens deviceType page i selectors
  induction selectors generalizing page i with
  | nil => rfl
  | cons s rest ih => simp [ScreenshotCapture.processSelectors, ih]

/-- C6: the selector rewriter is an idempotent pass-through on synthetic
locators: whenever the selector starts with `[data-screenshot`, the result
is the very same selector paired with the very same page — no DOM mutation,
and no DOM query either (the result does not depend on the page or the
token at all). -/
theorem makeSelectorSafe_idempotent (page : PageState) (freshToken selector : String)
    (h : startsWithDataScreenshot selector = true) :
    SelectorManager.makeSelectorSafe page freshToken selector = Except.ok (selector, page) := by
  simp [SelectorManager.makeSelectorSafe, h]

/-- Witness for C6 at the synthetic locator `[data-screenshot="x"]`. -/
theorem makeSelectorSafe_idempotent_witness :
    startsWithDataScreenshot "[data-screenshot=\"x\"]" = true ∧
      SelectorManager.makeSelectorSafe { matchesSelector := fun _ => false } "t" "[data-screenshot=\"x\"]"
        = Except.ok ("[data-screenshot=\"x\"]", { matchesSelector := fun _ => false }) :=
  ⟨by decide,
   makeSelectorSafe_idempotent { matchesSelector := fun _ => false } "t" "[data-screenshot=\"x\"]"
     (by decide)⟩

/-- Structured error from reading or parsing the config file
(`fs.readFileSync` throwing on a missing/unreadable file, or `JSON.parse`
throwing on malformed content). -/
inductive ConfigError
  | fileUnreadable (path : String)
  | parseFailed (message : String)
deriving DecidableEq

/-- Shape of the parsed config object: the `selectors` field may be absent
(`config.selectors || []` then falls back to the empty list). -/
structure ConfigData where
  selectors : Option (List String)
deriving DecidableEq

/-- Reading and parsing the config file: the filesystem maps a path to its
content (`none` models the missing/unreadable file, where `readFileSync`
throws), and `parse` models `JSON.parse`. -/
def readConfigFile (fs : String → Option String) (parse : String → Except String ConfigData)
    (path : String) : Except ConfigError ConfigData :=
  match fs path with
  | none => Except.error (ConfigError.fileUnreadable path)
  | some content =>
    match parse content with
    | Except.error m => Except.error (ConfigError.parseFailed m)
    | Except.ok c => Except.ok c

/-- Console line produced by the `catch` block of `getSelectors` /
`SelectorManager.loadSelectorsFromConfig`
(`console.error(\x60Error reading config file: ${error}\x60)`). -/
def configErrorMessage : ConfigError → String
  | ConfigError.fileUnreadable p => "Error reading config file: Error: ENOENT: " ++ p
  | ConfigError.parseFailed m => "Error reading config file: SyntaxError: " ++ m

/-- Base selector list together with the error lines logged while
producing it. -/
structure SelectorSource where
  selectors : List String
  errorLog : List String
deriving DecidableEq

/-- `getSelectors` from `src/index.ts` (identical to
`SelectorManager.loadSelectorsFromConfig`): with a config path, read and
parse the file and take its `selectors` field; a thrown read/parse error is
caught, logged, and recovered into the empty list.  Without a config path
the CLI-supplied selector list (or the empty list) is used. -/
def getSelectors (fs : String → Option String) (parse : String → Except String ConfigData)
    (config : Option String) (cliSelectors : Option (List String)) : SelectorSource :=
  match config with
  | some path =>
    match readConfigFile fs parse path with
    | Except.ok c => { selectors := c.selectors.getD [], errorLog := [] }
    | Except.error e => { selectors := [], errorLog := [configErrorMessage e] }
  | none => { selectors := cliSelectors.getD [], errorLog := [] }

/-- C7: whenever reading or parsing the config file fails, `getSelectors`
logs the error and returns the empty base selector list — resolution
proceeds non-fatally, and the read error is never propagated (the function
is total; its only outputs are the list and the log line). -/
theorem getSelectors_config_error_recovery (fs : String → Option String)
    (parse : String → Except String ConfigData) (path : String)
    (cliSelectors : Option (List String)) (e : ConfigError)
    (h : readConfigFile fs parse path = Except.error e) :
    getSelectors fs parse (some path) cliSelectors
      = { selectors := [], errorLog := [configErrorMessage e] } := by
  simp [getSelectors, h]

/-- Filesystem with no readable files. -/
def missingFileFS : String → Option String := fun _ => none

/-- Parser that accepts everything (irrelevant when the read throws). -/
def acceptingJsonParse : String → Except String ConfigData :=
  fun _ => Except.ok { selectors := none }

/-- Witness for C7 at the missing file `config.json`. -/
theorem getSelectors_config_error_recovery_witness :
    readConfigFile missingFileFS acceptingJsonParse "config.json"
        = Except.error (ConfigError.fileUnreadable "config.json") ∧
      getSelectors missingFileFS acceptingJsonParse (some "config.json") (some [".a"])
        = { selectors := [],
            errorLog := [configErrorMessage (ConfigError.fileUnreadable "config.json")] } :=
  ⟨rfl,
   getSelectors_config_error_recovery missingFileFS acceptingJsonParse "config.json"
     (some [".a"]) (ConfigError.fileUnreadable "config.json") rfl⟩

/-- Evolution of the mutable `selectors` variable of `captureScreenshots`
(`src/index.ts`) over the device loop: `let selectors = getSelectors(...)`
runs once before the loop, and each device pass — when a parent selector is
configured (`parentPresent`) — reassigns that same variable with
`selectors = Array.from(new Set([...selectors, ...childSelectors]))`.
Given the per-pass results of the child query, this returns the base list
each device pass starts from. -/
def captureScreenshotsBaseLists (parentPresent : Bool) :
    List String → List (List String) → List (List String)
  | _, [] => []
  | selectors, childSelectors :: rest =>
    selectors :: captureScreenshotsBaseLists parentPresent
      (if parentPresent then jsSetDedup (selectors ++ childSelectors) else selectors) rest

/-- C4 (code bug in `src/index.ts`): with device `both`, base list `[".a"]`
and a parent selector whose element has one child on both loads, the second
device pass starts from the first pass's resolved list — the synthetic
locator created during the first pass included — not from the unmodified
original list.  (The class-based variant recomputes `getSelectors()` inside
each pass and does not leak.) -/
theorem captureScreenshots_selector_leak :
    captureScreenshotsBaseLists true [".a"]
        [SelectorManager.getChildSelectors (some 1), SelectorManager.getChildSelectors (some 1)]
      = [[".a"], [".a", "[data-screenshot=\"screenshot-target-0\"]"]] ∧
      ([".a", "[data-screenshot=\"screenshot-target-0\"]"] : List String) ≠ [".a"] := by
  decide

/-- Vertical components of a `getBoundingClientRect()` result: `top` is
relative to the viewport, `height` is the element's height. -/
structure Rect where
  top : ℚ
  height : ℚ

/-- Phase A of the centering heuristic (`AnimationHandler.centerElement`;
first `page.evaluate` of `triggerAnimation`): the absolute scroll target
passed to `window.scrollTo` — current scroll plus element top minus half of
(viewport height − element height), clamped below at 0 by `Math.max`. -/
def AnimationHandler.centerElement (pageYOffset : ℚ) (rect : Rect) (viewportHeight : ℚ) : ℚ :=
  max 0 (pageYOffset + rect.top - (viewportHeight - rect.height) / 2)

/-- Phase B of the centering heuristic (`AnimationHandler.adjustPosition`;
second `page.evaluate` of `triggerAnimation`): from the post-Phase-A
rectangle, compute the element's and the viewport's vertical centers; if
their distance exceeds the 50px tolerance, return the relative amount
passed to `window.scrollBy` (`some adjustment`), else scroll nothing. -/
def AnimationHandler.adjustPosition (rect : Rect) (viewportHeight : ℚ) : Option ℚ :=
  let elementCenter := rect.top + rect.height / 2
  let viewportCenter := viewportHeight / 2
  let offset := |elementCenter - viewportCenter|
  if offset > 50 then some (elementCenter - viewportCenter) else none

/-- Absolute scroll offset reached by Phase B's `window.scrollBy` (the code
applies no clamping here). -/
def AnimationHandler.adjustPositionResult (pageYOffset : ℚ) (rect : Rect)
    (viewportHeight : ℚ) : ℚ :=
  match AnimationHandler.adjustPosition rect viewportHeight with
  | some adjustment => pageYOffset + adjustment
  | none => pageYOffset

/-- C8: Phase B issues a corrective scroll if and only if the distance
between the element's vertical center and the viewport's vertical center
exceeds 50 pixels, and when it does, the issued scroll amount is exactly
that difference (element center − viewport center). -/
theorem adjustPosition_tolerance (rect : Rect) (viewportHeight : ℚ) :
    ((AnimationHandler.adjustPosition rect viewportHeight).isSome = true ↔
        50 < |rect.top + rect.height / 2 - viewportHeight / 2|) ∧
      ∀ a, AnimationHandler.adjustPosition rect viewportHeight = some a →
        a = rect.top + rect.height / 2 - viewportHeight / 2 := by
  simp only [AnimationHandler.adjustPosition, gt_iff_lt]
  by_cases h : 50 < |rect.top + rect.height / 2 - viewportHeight / 2|
  · rw [if_pos h]
    exact ⟨by simp [h], fun a ha => (Option.some_inj.mp ha).symm⟩
  · rw [if_neg h]
    refine ⟨by simp [h], fun a ha => ?_⟩
    cases ha

/-- Witness for C8: the rectangle `top = 500`, `height = 100` in an 800px
viewport is 150px off its center, so Phase B fires, and the issued amount
150 equals the center difference. -/
theorem adjustPosition_tolerance_witness :
    (AnimationHandler.adjustPosition { top := 500, height := 100 } 800).isSome = true ∧
      (150 : ℚ) = (500 : ℚ) + 100 / 2 - 800 / 2 :=
  ⟨(adjustPosition_tolerance { top := 500, height := 100 } 800).1.mpr (by norm_num),
   (adjustPosition_tolerance { top := 500, height := 100 } 800).2 150 (by
      unfold AnimationHandler.adjustPosition
      norm_num)⟩

/-- C9 counterexample: for an element whose post-Phase-A rectangle sits
1000px above the viewport of a 900px-high unscrolled page, Phase B fires
(the center offset is 1445 > 50) and its `scrollBy` lands at the negative
absolute offset −1445 — the heuristic does issue a scroll resulting in a
negative offset. -/
theorem adjustPosition_negative_offset_counterexample :
    (AnimationHandler.adjustPosition { top := -1000, height := 10 } 900).isSome = true ∧
      AnimationHandler.adjustPositionResult 0 { top := -1000, height := 10 } 900 < 0 := by
  have h : AnimationHandler.adjustPosition { top := -1000, height := 10 } 900
      = some (-1445) := by
    unfold AnimationHandler.adjustPosition
    norm_num
  refine ⟨by rw [h]; rfl, ?_⟩
  unfold AnimationHandler.adjustPositionResult
  rw [h]
  norm_num

/-- C9 as amended: Phase A's issued scroll target equals
`max 0 (scroll + top − (viewportHeight − height)/2)` and is therefore never
negative, for every element position, element height, viewport height and
current scroll offset; Phase B, however, issues an unclamped relative
scroll (see the counterexample for a negative resulting offset). -/
theorem centerElement_clamped_nonneg (pageYOffset : ℚ) (rect : Rect) (viewportHeight : ℚ) :
    AnimationHandler.centerElement pageYOffset rect viewportHeight
        = max 0 (pageYOffset + rect.top - (viewportHeight - rect.height) / 2) ∧
      0 ≤ AnimationHandler.centerElement pageYOffset rect viewportHeight :=
  ⟨rfl, le_max_left 0 _⟩
